import Mathlib

/-!
Shallow embedding of the gate-alarm controller
(`src/controller/src/main.cpp`).

The controller is a single-threaded Arduino sketch.  Its mutable globals
become the fields of the structure `St` below; each C++ function that
mutates globals and/or writes output pins becomes a Lean function on `St`.
Calls to `millis()` are modelled by a clock `Clk : Nat → Nat` mapping the
index of the call (in program order within a tick) to the millisecond
timestamp it returns; stateful functions thread the pair
`(state, next call index)`.

`unsigned long` is 32 bits on the AVR target, so unsigned subtraction is
`usub` (wrap-safe subtraction mod 2^32) and the `(unsigned long)` cast of a
`long` is `toU32`.  Signed `long` values (`totalSuspendTime`,
`suspendTimeAccumulator`) are modelled as `Int`; signed overflow is
undefined behaviour in C++ and is not given a meaning here, except where
the source converts through unsigned types, where the conversion is
modelled exactly (`wrap32`).
-/

namespace GateAlarm

/-- `2^32`: one more than the largest `unsigned long` value on the target. -/
def UL : Nat := 2 ^ 32

/-- Wrap-safe unsigned subtraction `a - b` on `unsigned long` (mod `2^32`). -/
def usub (a b : Nat) : Nat := (a + UL - b % UL) % UL

/-- The `(unsigned long)` conversion of a `long` value. -/
def toU32 (x : Int) : Nat := (x % (2 ^ 32 : Int)).toNat

/-- Conversion of a mathematical integer to the signed 32-bit `long` that the
AVR target produces for it (two's-complement wrap). -/
def wrap32 (x : Int) : Int := (x + 2 ^ 31) % (2 ^ 32 : Int) - 2 ^ 31

/-- Reduction of an unsigned value to the 16-bit `unsigned int` of the AVR
target. -/
def toU16 (n : Nat) : Nat := n % 2 ^ 16

def SECONDS_PER_MINUTE : Nat := 60
def MILLIS_PER_SECOND : Nat := 1000
def MILLIS_PER_MINUTE : Nat := MILLIS_PER_SECOND * SECONDS_PER_MINUTE

def DISPLAY_UPDATE_DELTA : Nat := 250
def ALARM_BUZZER_ON_TIME : Nat := 1500
def ALARM_BUZZER_OFF_TIME : Nat := 1000
def ALARM_BUZZER_CYCLE_TIME : Nat := ALARM_BUZZER_ON_TIME + ALARM_BUZZER_OFF_TIME
def ALARM_LED_ON_TIME : Nat := 250
def ALARM_LED_OFF_TIME : Nat := 250
def ALARM_LED_CYCLE_TIME : Nat := ALARM_LED_ON_TIME + ALARM_LED_OFF_TIME
def HEARTBEAT_LED_ON_TIME : Nat := 100
def HEARTBEAT_LED_OFF_TIME : Nat := 8000
def HEARTBEAT_LED_CYCLE_TIME : Nat := HEARTBEAT_LED_ON_TIME + HEARTBEAT_LED_OFF_TIME
def LCD_BACKLIGHT_TIMEOUT : Nat := 10000

def SUSPEND_OFF : Int := 0
def SUSPEND_INFINITE : Int := -1

def DIGIT_ENTRY_BASE : Int := 10

def HASH_KEY : Int := -1
def STAR_KEY : Int := -2
def INVALID_KEY : Int := -9

/-- The controller's mutable state: the C++ globals, the output pins it
drives, the LCD backlight, and the two `static` strings of
`writeLinesOnLCD` that record what is currently rendered. -/
structure St where
  alarmSounding : Bool
  gateOpen : Bool
  suspendStartTime : Nat
  totalSuspendTime : Int
  suspendTimeAccumulator : Int
  isUpdatingSuspendTime : Bool
  lastDisplayUpdate : Nat
  alarmBuzzerPulseStartTime : Nat
  alarmLEDPulseStartTime : Nat
  heartbeatLEDPulseStartTime : Nat
  lcdBacklightTimeoutStartTime : Nat
  buzzerPin : Bool
  alarmLEDPin : Bool
  heartbeatLEDPin : Bool
  backlightOn : Bool
  oldLine1 : String
  oldLine2 : String
  deriving Repr, DecidableEq

/-- A clock: the value `millis()` returns at its `k`-th call of the tick. -/
abbrev Clk := Nat → Nat

/-- State paired with the index of the next `millis()` call. -/
abbrev C := St × Nat

/-- `keypadValue`: map a key character to a digit 0–9, `HASH_KEY`,
`STAR_KEY` or `INVALID_KEY`. -/
def keypadValue (key : Char) : Int :=
  if '0' ≤ key ∧ key ≤ '9' then (key.toNat : Int) - ('0'.toNat : Int)
  else if key = '#' then HASH_KEY
  else if key = '*' then STAR_KEY
  else INVALID_KEY

/-- `isSuspended()`. -/
def isSuspended (s : St) : Bool := s.totalSuspendTime ≠ SUSPEND_OFF

/-- `isInfiniteSuspension()`. -/
def isInfiniteSuspension (s : St) : Bool := s.totalSuspendTime = SUSPEND_INFINITE

/-- `switchLCDBacklightOn()`: rearm the backlight timeout and light the
backlight.  Reads `millis()` once. -/
def switchLCDBacklightOn (clk : Clk) (s : St) (k : Nat) : C :=
  ({ s with lcdBacklightTimeoutStartTime := clk k, backlightOn := true }, k + 1)

/-- `switchLCDBacklightOff()`. -/
def switchLCDBacklightOff (s : St) : St :=
  { s with backlightOn := false, lcdBacklightTimeoutStartTime := 0 }

/-- `hideAlarmLED()`. -/
def hideAlarmLED (s : St) : St :=
  { s with alarmLEDPulseStartTime := 0, alarmLEDPin := false }

/-- `showAlarmLED()`: light the alarm LED and reset its pulse reference.
Reads `millis()` once. -/
def showAlarmLED (clk : Clk) (s : St) (k : Nat) : C :=
  ({ s with alarmLEDPin := true, alarmLEDPulseStartTime := clk k }, k + 1)

/-- `silenceAlarm()`. -/
def silenceAlarm (s : St) : St :=
  if s.alarmSounding then
    { s with alarmSounding := false, alarmBuzzerPulseStartTime := 0,
             buzzerPin := false }
  else s

/-- `activateAlarm()`: reads `millis()` once when it actually fires. -/
def activateAlarm (clk : Clk) (s : St) (k : Nat) : C :=
  if s.gateOpen then
    if ¬ s.alarmSounding then
      ({ s with buzzerPin := true, alarmBuzzerPulseStartTime := clk k,
                alarmSounding := true }, k + 1)
    else (s, k)
  else (s, k)

/-- `cancelSuspension()`. -/
def cancelSuspension (s : St) : St :=
  { s with totalSuspendTime := SUSPEND_OFF, suspendStartTime := 0 }

/-- `openGate()`. -/
def openGate (clk : Clk) (s : St) (k : Nat) : C :=
  if ¬ s.gateOpen then
    let c := showAlarmLED clk { s with gateOpen := true } k
    if ¬ isSuspended c.1 then activateAlarm clk c.1 c.2 else c
  else (s, k)

/-- `reset()`. -/
def reset (s : St) : St :=
  hideAlarmLED (silenceAlarm (cancelSuspension { s with gateOpen := false }))

/-- `processKeypadDigit(int digit)`. -/
def processKeypadDigit (digit : Int) (s : St) : St :=
  if s.isUpdatingSuspendTime then
    { s with suspendTimeAccumulator :=
        s.suspendTimeAccumulator * DIGIT_ENTRY_BASE + digit }
  else
    { s with suspendTimeAccumulator := digit, isUpdatingSuspendTime := true }

/-- `processKeypadHash()`.  The duration `suspendTimeAccumulator *
MILLIS_PER_MINUTE` is a `long * unsigned long` product: both operands
convert to `unsigned long`, the multiplication is performed mod `2^32`,
and the result is stored back into the signed `long totalSuspendTime` —
modelled by `wrap32` of the mathematical product. -/
def processKeypadHash (clk : Clk) (s : St) (k : Nat) : C :=
  let c : C :=
    if s.isUpdatingSuspendTime then
      let s :=
        if s.suspendTimeAccumulator ≠ 0 then
          { s with totalSuspendTime :=
              wrap32 (s.suspendTimeAccumulator * (MILLIS_PER_MINUTE : Int)) }
        else
          { s with totalSuspendTime := SUSPEND_OFF }
      ({ s with suspendTimeAccumulator := 0, isUpdatingSuspendTime := false }, k)
    else
      switchLCDBacklightOn clk { s with totalSuspendTime := SUSPEND_INFINITE } k
  if isSuspended c.1 then
    let s := if c.1.alarmSounding then silenceAlarm c.1 else c.1
    if ¬ isInfiniteSuspension s then
      ({ s with suspendStartTime := clk c.2 }, c.2 + 1)
    else
      ({ s with suspendStartTime := 0 }, c.2)
  else
    if c.1.gateOpen then activateAlarm clk c.1 c.2 else c

/-- `processKeypadStar()`. -/
def processKeypadStar (s : St) : St := reset s

/-- `writeLinesOnLCD(line1, line2)`: redraw (and rearm the backlight) only
when the text differs from what the `static` locals say is rendered. -/
def writeLinesOnLCD (clk : Clk) (line1 line2 : String) (s : St) (k : Nat) : C :=
  if line1 ≠ s.oldLine1 ∨ line2 ≠ s.oldLine2 then
    let c := switchLCDBacklightOn clk s k
    ({ c.1 with oldLine1 := line1, oldLine2 := line2 }, c.2)
  else (s, k)

/-- The `MM:SS` countdown text of `updateDisplay`'s finite-suspension
branch, with the source's mixed `long`/`unsigned long`/`unsigned int`
arithmetic modelled exactly (`unsigned int` is 16 bits on the target). -/
def remainingText (total : Int) (start now : Nat) : String :=
  let millisRemaining : Int := wrap32 (total - (now : Int) + (start : Int))
  let minsRemaining : Nat := toU16 (toU32 millisRemaining / MILLIS_PER_MINUTE)
  let secsRemaining0 : Nat :=
    toU16 (usub (toU32 millisRemaining) (minsRemaining * MILLIS_PER_MINUTE)
           / MILLIS_PER_SECOND)
  let secsRemaining : Nat := secsRemaining0 % SECONDS_PER_MINUTE
  let secsStr : String := toString secsRemaining
  let secsStr : String := if secsStr.length = 1 then "0" ++ secsStr else secsStr
  toString minsRemaining ++ ":" ++ secsStr

/-- `updateDisplay()`: choose the two lines from the current state; the
finite-suspension branch reads `millis()` once to compute the countdown. -/
def updateDisplay (clk : Clk) (s : St) (k : Nat) : C :=
  if s.isUpdatingSuspendTime then
    writeLinesOnLCD clk "Enter delay:" (toString s.suspendTimeAccumulator) s k
  else if isSuspended s then
    if isInfiniteSuspension s then
      writeLinesOnLCD clk "Alarm" "Suspended" s k
    else
      writeLinesOnLCD clk "Alarm paused for"
        (remainingText s.totalSuspendTime s.suspendStartTime (clk k)) s (k + 1)
  else
    if s.gateOpen then
      writeLinesOnLCD clk "** GATE **" "** OPEN **" s k
    else
      writeLinesOnLCD clk "OK" "" s k

/-- One tick's input: whether `btnMagnet.isPressed()` and the character
`keypad.getKey()` returned (`NO_KEY` is the NUL character). -/
structure Input where
  magnetPressed : Bool
  key : Char

/-- Sensor section of `loop`: open the gate when the magnet switch (or the
parallel test button) is pressed. -/
def loopSensor (clk : Clk) (magnetPressed : Bool) (s : St) (k : Nat) : C :=
  if magnetPressed then openGate clk s k else (s, k)

/-- Keypad section of `loop`: dispatch on `keypadValue`. -/
def loopKey (clk : Clk) (key : Char) (s : St) (k : Nat) : C :=
  if key ≠ Char.ofNat 0 then
    let keyVal := keypadValue key
    if 0 ≤ keyVal ∧ keyVal ≤ 9 then (processKeypadDigit keyVal s, k)
    else if keyVal = HASH_KEY then processKeypadHash clk s k
    else if keyVal = STAR_KEY then (processKeypadStar s, k)
    else (s, k)
  else (s, k)

/-- Suspension-timeout section of `loop`: a finite suspension whose
duration has strictly elapsed is cancelled and the alarm re-activated. -/
def loopSuspend (clk : Clk) (s : St) (k : Nat) : C :=
  if isSuspended s ∧ ¬ isInfiniteSuspension s then
    if usub (clk k) s.suspendStartTime > toU32 s.totalSuspendTime then
      activateAlarm clk (cancelSuspension s) (k + 1)
    else (s, k + 1)
  else (s, k)

/-- Display section of `loop`: redraw at most every
`DISPLAY_UPDATE_DELTA` ms. -/
def loopDisplay (clk : Clk) (s : St) (k : Nat) : C :=
  if usub (clk k) s.lastDisplayUpdate > DISPLAY_UPDATE_DELTA then
    let c := updateDisplay clk s (k + 1)
    ({ c.1 with lastDisplayUpdate := clk c.2 }, c.2 + 1)
  else (s, k + 1)

/-- Buzzer section of `loop`: while the alarm sounds, rebase the pulse
reference after a full cycle, otherwise drive the pin from the elapsed
time within the cycle. -/
def loopBuzzer (clk : Clk) (s : St) (k : Nat) : C :=
  if s.alarmSounding then
    if usub (clk k) s.alarmBuzzerPulseStartTime > ALARM_BUZZER_CYCLE_TIME then
      ({ s with alarmBuzzerPulseStartTime := clk (k + 1) }, k + 2)
    else
      if usub (clk (k + 1)) s.alarmBuzzerPulseStartTime < ALARM_BUZZER_ON_TIME then
        ({ s with buzzerPin := true }, k + 2)
      else
        ({ s with buzzerPin := false }, k + 2)
  else (s, k)

/-- Alarm-LED section of `loop`: same square-wave scheme as the buzzer,
keyed to the gate being open. -/
def loopAlarmLED (clk : Clk) (s : St) (k : Nat) : C :=
  if s.gateOpen then
    if usub (clk k) s.alarmLEDPulseStartTime > ALARM_LED_CYCLE_TIME then
      ({ s with alarmLEDPulseStartTime := clk (k + 1) }, k + 2)
    else
      if usub (clk (k + 1)) s.alarmLEDPulseStartTime < ALARM_LED_ON_TIME then
        ({ s with alarmLEDPin := true }, k + 2)
      else
        ({ s with alarmLEDPin := false }, k + 2)
  else (s, k)

/-- Heartbeat section of `loop`: square wave while not suspended, forced
high while suspended. -/
def loopHeartbeat (clk : Clk) (s : St) (k : Nat) : C :=
  if ¬ isSuspended s then
    if usub (clk k) s.heartbeatLEDPulseStartTime > HEARTBEAT_LED_CYCLE_TIME then
      ({ s with heartbeatLEDPulseStartTime := clk (k + 1) }, k + 2)
    else
      if usub (clk (k + 1)) s.heartbeatLEDPulseStartTime < HEARTBEAT_LED_ON_TIME then
        ({ s with heartbeatLEDPin := true }, k + 2)
      else
        ({ s with heartbeatLEDPin := false }, k + 2)
  else ({ s with heartbeatLEDPin := true }, k)

/-- Backlight-timeout section of `loop`: auto-off after
`LCD_BACKLIGHT_TIMEOUT` ms unless the gate is open, a finite suspension is
running, or a suspend time is being entered. -/
def loopBacklight (clk : Clk) (s : St) (k : Nat) : C :=
  if usub (clk k) s.lcdBacklightTimeoutStartTime ≥ LCD_BACKLIGHT_TIMEOUT
      ∧ ¬ s.gateOpen
      ∧ (¬ isSuspended s ∨ isInfiniteSuspension s)
      ∧ ¬ s.isUpdatingSuspendTime then
    (switchLCDBacklightOff s, k + 1)
  else (s, k + 1)

/-- The tick up to (excluding) the backlight-timeout section. -/
def loopPre (clk : Clk) (inp : Input) (s : St) (k : Nat) : C :=
  let c := loopSensor clk inp.magnetPressed s k
  let c := loopKey clk inp.key c.1 c.2
  let c := loopSuspend clk c.1 c.2
  let c := loopDisplay clk c.1 c.2
  let c := loopBuzzer clk c.1 c.2
  let c := loopAlarmLED clk c.1 c.2
  loopHeartbeat clk c.1 c.2

/-- `loop()`: one tick, as written, `millis()` calls indexed by `clk`. -/
def loopTick (clk : Clk) (inp : Input) (s : St) (k : Nat) : C :=
  let c := loopPre clk inp s k
  loopBacklight clk c.1 c.2

/-!
The spec describes the tick as "driven from a single monotonically
increasing clock read once per loop iteration".  The following `…Fixed`
definitions are that reading of the body: every `millis()` call is
replaced by one timestamp `now` read at the start of the tick.  They are
the comparison side of the refinement claim, written from the spec's
words, not from the source (the source reads `millis()` afresh at each
call site).
-/

def switchLCDBacklightOnFixed (now : Nat) (s : St) : St :=
  { s with lcdBacklightTimeoutStartTime := now, backlightOn := true }

def showAlarmLEDFixed (now : Nat) (s : St) : St :=
  { s with alarmLEDPin := true, alarmLEDPulseStartTime := now }

def activateAlarmFixed (now : Nat) (s : St) : St :=
  if s.gateOpen then
    if ¬ s.alarmSounding then
      { s with buzzerPin := true, alarmBuzzerPulseStartTime := now,
               alarmSounding := true }
    else s
  else s

def openGateFixed (now : Nat) (s : St) : St :=
  if ¬ s.gateOpen then
    let s := showAlarmLEDFixed now { s with gateOpen := true }
    if ¬ isSuspended s then activateAlarmFixed now s else s
  else s

def processKeypadHashFixed (now : Nat) (s : St) : St :=
  let s :=
    if s.isUpdatingSuspendTime then
      let s :=
        if s.suspendTimeAccumulator ≠ 0 then
          { s with totalSuspendTime :=
              wrap32 (s.suspendTimeAccumulator * (MILLIS_PER_MINUTE : Int)) }
        else
          { s with totalSuspendTime := SUSPEND_OFF }
      { s with suspendTimeAccumulator := 0, isUpdatingSuspendTime := false }
    else
      switchLCDBacklightOnFixed now { s with totalSuspendTime := SUSPEND_INFINITE }
  if isSuspended s then
    let s := if s.alarmSounding then silenceAlarm s else s
    if ¬ isInfiniteSuspension s then { s with suspendStartTime := now }
    else { s with suspendStartTime := 0 }
  else
    if s.gateOpen then activateAlarmFixed now s else s

def writeLinesOnLCDFixed (now : Nat) (line1 line2 : String) (s : St) : St :=
  if line1 ≠ s.oldLine1 ∨ line2 ≠ s.oldLine2 then
    { switchLCDBacklightOnFixed now s with oldLine1 := line1, oldLine2 := line2 }
  else s

def updateDisplayFixed (now : Nat) (s : St) : St :=
  if s.isUpdatingSuspendTime then
    writeLinesOnLCDFixed now "Enter delay:" (toString s.suspendTimeAccumulator) s
  else if isSuspended s then
    if isInfiniteSuspension s then
      writeLinesOnLCDFixed now "Alarm" "Suspended" s
    else
      writeLinesOnLCDFixed now "Alarm paused for"
        (remainingText s.totalSuspendTime s.suspendStartTime now) s
  else
    if s.gateOpen then
      writeLinesOnLCDFixed now "** GATE **" "** OPEN **" s
    else
      writeLinesOnLCDFixed now "OK" "" s

def loopSensorFixed (now : Nat) (magnetPressed : Bool) (s : St) : St :=
  if magnetPressed then openGateFixed now s else s

def loopKeyFixed (now : Nat) (key : Char) (s : St) : St :=
  if key ≠ Char.ofNat 0 then
    let keyVal := keypadValue key
    if 0 ≤ keyVal ∧ keyVal ≤ 9 then processKeypadDigit keyVal s
    else if keyVal = HASH_KEY then processKeypadHashFixed now s
    else if keyVal = STAR_KEY then processKeypadStar s
    else s
  else s

def loopSuspendFixed (now : Nat) (s : St) : St :=
  if isSuspended s ∧ ¬ isInfiniteSuspension s then
    if usub now s.suspendStartTime > toU32 s.totalSuspendTime then
      activateAlarmFixed now (cancelSuspension s)
    else s
  else s

def loopDisplayFixed (now : Nat) (s : St) : St :=
  if usub now s.lastDisplayUpdate > DISPLAY_UPDATE_DELTA then
    { updateDisplayFixed now s with lastDisplayUpdate := now }
  else s

def loopBuzzerFixed (now : Nat) (s : St) : St :=
  if s.alarmSounding then
    if usub now s.alarmBuzzerPulseStartTime > ALARM_BUZZER_CYCLE_TIME then
      { s with alarmBuzzerPulseStartTime := now }
    else
      if usub now s.alarmBuzzerPulseStartTime < ALARM_BUZZER_ON_TIME then
        { s with buzzerPin := true }
      else
        { s with buzzerPin := false }
  else s

def loopAlarmLEDFixed (now : Nat) (s : St) : St :=
  if s.gateOpen then
    if usub now s.alarmLEDPulseStartTime > ALARM_LED_CYCLE_TIME then
      { s with alarmLEDPulseStartTime := now }
    else
      if usub now s.alarmLEDPulseStartTime < ALARM_LED_ON_TIME then
        { s with alarmLEDPin := true }
      else
        { s with alarmLEDPin := false }
  else s

def loopHeartbeatFixed (now : Nat) (s : St) : St :=
  if ¬ isSuspended s then
    if usub now s.heartbeatLEDPulseStartTime > HEARTBEAT_LED_CYCLE_TIME then
      { s with heartbeatLEDPulseStartTime := now }
    else
      if usub now s.heartbeatLEDPulseStartTime < HEARTBEAT_LED_ON_TIME then
        { s with heartbeatLEDPin := true }
      else
        { s with heartbeatLEDPin := false }
  else { s with heartbeatLEDPin := true }

def loopBacklightFixed (now : Nat) (s : St) : St :=
  if usub now s.lcdBacklightTimeoutStartTime ≥ LCD_BACKLIGHT_TIMEOUT
      ∧ ¬ s.gateOpen
      ∧ (¬ isSuspended s ∨ isInfiniteSuspension s)
      ∧ ¬ s.isUpdatingSuspendTime then
    switchLCDBacklightOff s
  else s

/-- The tick with every `millis()` replaced by the single timestamp
`now`. -/
def loopTickFixed (now : Nat) (inp : Input) (s : St) : St :=
  loopBacklightFixed now
    (loopHeartbeatFixed now
      (loopAlarmLEDFixed now
        (loopBuzzerFixed now
          (loopDisplayFixed now
            (loopSuspendFixed now
              (loopKeyFixed now inp.key
                (loopSensorFixed now inp.magnetPressed s)))))))

/-- Alarm-soundness invariant of the spec's data model: the alarm sounds
only while the gate is open and no suspension is active. -/
def Inv (s : St) : Prop :=
  s.alarmSounding = true → (s.gateOpen = true ∧ s.totalSuspendTime = SUSPEND_OFF)

/-- The state fields of the alarm state machine proper (as opposed to the
pulse references, output pins and display bookkeeping): alarm-sounding,
gate-open, suspension duration and start, editing flag and accumulator. -/
def core (s : St) : Bool × Bool × Int × Nat × Bool × Int :=
  (s.alarmSounding, s.gateOpen, s.totalSuspendTime, s.suspendStartTime,
   s.isUpdatingSuspendTime, s.suspendTimeAccumulator)

/-- A concrete quiescent state: gate closed, no suspension, not editing,
everything at its power-on value except that the backlight is on. -/
def st0 : St :=
  { alarmSounding := false, gateOpen := false, suspendStartTime := 0,
    totalSuspendTime := 0, suspendTimeAccumulator := 0,
    isUpdatingSuspendTime := false, lastDisplayUpdate := 0,
    alarmBuzzerPulseStartTime := 0, alarmLEDPulseStartTime := 0,
    heartbeatLEDPulseStartTime := 0, lcdBacklightTimeoutStartTime := 0,
    buzzerPin := false, alarmLEDPin := false, heartbeatLEDPin := false,
    backlightOn := true, oldLine1 := "", oldLine2 := "" }

/-- A tick input with no sensor event and no key press. -/
def noInput : Input := { magnetPressed := false, key := Char.ofNat 0 }

/-- A clock that advances by 1000 ms between consecutive `millis()` calls
within one tick. -/
def clkCx : Clk := fun k => 1000 * (k + 1)

/-!
Helper lemmas: wrap-safe arithmetic, invariant preservation per section of
the loop, frame properties of the pulse sections, backlight monotonicity,
and the single-clock collapse of each section.
-/

lemma usub_sub (a b : Nat) (h1 : b ≤ a) (h2 : a - b < UL) : usub a b = a - b := by
  simp only [usub, UL] at *
  omega

lemma toU32_coe (d : Nat) (h : d < UL) : toU32 (d : Int) = d := by
  simp only [toU32, UL] at *
  omega

lemma wrap32_eq (x : Int) (h0 : 0 ≤ x) (h1 : x < 2 ^ 31) : wrap32 x = x := by
  simp only [wrap32] at *
  omega

lemma acc_total_ne_negone (a : Int) : ¬ a * 60000 = -1 := by
  intro h
  have h2 : a * (60000 : Int) % (60000 : Int) = 0 := Int.mul_emod_left a _
  rw [h] at h2
  norm_num at h2

lemma core_display (clk : Clk) (s : St) (k : Nat) :
    core (loopDisplay clk s k).1 = core s := by
  unfold loopDisplay updateDisplay writeLinesOnLCD switchLCDBacklightOn
  split_ifs <;> rfl

lemma core_buzzer (clk : Clk) (s : St) (k : Nat) :
    core (loopBuzzer clk s k).1 = core s := by
  unfold loopBuzzer
  split_ifs <;> rfl

lemma core_alarmLED (clk : Clk) (s : St) (k : Nat) :
    core (loopAlarmLED clk s k).1 = core s := by
  unfold loopAlarmLED
  split_ifs <;> rfl

lemma core_heartbeat (clk : Clk) (s : St) (k : Nat) :
    core (loopHeartbeat clk s k).1 = core s := by
  unfold loopHeartbeat
  split_ifs <;> rfl

lemma core_backlight (clk : Clk) (s : St) (k : Nat) :
    core (loopBacklight clk s k).1 = core s := by
  unfold loopBacklight switchLCDBacklightOff
  split_ifs <;> rfl

lemma Inv_of_core {a b : St} (h : core a = core b) (hb : Inv b) : Inv a := by
  simp only [core, Prod.mk.injEq] at h
  unfold Inv at *
  rw [h.1, h.2.1, h.2.2.1]
  exact hb

lemma Inv_openGate (clk : Clk) {s : St} (h : Inv s) (k : Nat) :
    Inv (openGate clk s k).1 := by
  unfold Inv at *
  simp only [openGate, showAlarmLED, activateAlarm, isSuspended, SUSPEND_OFF]
  split_ifs <;> simp_all [SUSPEND_OFF]

lemma Inv_sensor (clk : Clk) (mp : Bool) {s : St} (h : Inv s) (k : Nat) :
    Inv (loopSensor clk mp s k).1 := by
  unfold loopSensor
  split_ifs
  · exact Inv_openGate clk h k
  · exact h

lemma Inv_digit (d : Int) {s : St} (h : Inv s) : Inv (processKeypadDigit d s) := by
  unfold Inv at *
  simp only [processKeypadDigit]
  split_ifs <;> simp_all

lemma Inv_star (s : St) : Inv (processKeypadStar s) := by
  unfold Inv
  simp only [processKeypadStar, reset, hideAlarmLED, silenceAlarm, cancelSuspension]
  split_ifs <;> simp_all

lemma Inv_hash (clk : Clk) {s : St} (h : Inv s) (k : Nat) :
    Inv (processKeypadHash clk s k).1 := by
  unfold Inv at *
  simp only [processKeypadHash, switchLCDBacklightOn, silenceAlarm, activateAlarm,
    isSuspended, isInfiniteSuspension, SUSPEND_OFF, SUSPEND_INFINITE,
    MILLIS_PER_MINUTE, MILLIS_PER_SECOND, SECONDS_PER_MINUTE]
  split_ifs <;> simp_all [acc_total_ne_negone]

lemma Inv_key (clk : Clk) (key : Char) {s : St} (h : Inv s) (k : Nat) :
    Inv (loopKey clk key s k).1 := by
  unfold loopKey
  dsimp only
  split_ifs <;>
    first
      | exact h
      | exact Inv_digit _ h
      | exact Inv_hash clk h k
      | exact Inv_star _

lemma Inv_suspend (clk : Clk) {s : St} (h : Inv s) (k : Nat) :
    Inv (loopSuspend clk s k).1 := by
  unfold Inv at *
  simp only [loopSuspend, cancelSuspension, activateAlarm, isSuspended,
    isInfiniteSuspension, SUSPEND_OFF, SUSPEND_INFINITE]
  split_ifs <;> simp_all [SUSPEND_OFF]

lemma backlight_openGate (clk : Clk) (s : St) (k : Nat) :
    (openGate clk s k).1.backlightOn = s.backlightOn := by
  simp only [openGate, showAlarmLED, activateAlarm]
  split_ifs <;> rfl

lemma backlight_sensor (clk : Clk) (mp : Bool) (s : St) (k : Nat) :
    (loopSensor clk mp s k).1.backlightOn = s.backlightOn := by
  unfold loopSensor
  split_ifs
  · exact backlight_openGate clk s k
  · rfl

lemma backlight_hash (clk : Clk) (s : St) (k : Nat) :
    s.backlightOn ≤ (processKeypadHash clk s k).1.backlightOn := by
  simp only [processKeypadHash, switchLCDBacklightOn, silenceAlarm, activateAlarm]
  split_ifs <;> simp

lemma backlight_key (clk : Clk) (key : Char) (s : St) (k : Nat) :
    s.backlightOn ≤ (loopKey clk key s k).1.backlightOn := by
  unfold loopKey
  dsimp only
  split_ifs <;>
    first
      | exact le_refl _
      | exact backlight_hash clk s k
      | (simp only [processKeypadDigit]; split_ifs <;> exact le_refl _)
      | (simp only [processKeypadStar, reset, hideAlarmLED, silenceAlarm,
          cancelSuspension]; split_ifs <;> exact le_refl _)

lemma backlight_suspend (clk : Clk) (s : St) (k : Nat) :
    (loopSuspend clk s k).1.backlightOn = s.backlightOn := by
  simp only [loopSuspend, cancelSuspension, activateAlarm]
  split_ifs <;> rfl

lemma backlight_display (clk : Clk) (s : St) (k : Nat) :
    s.backlightOn ≤ (loopDisplay clk s k).1.backlightOn := by
  simp only [loopDisplay, updateDisplay, writeLinesOnLCD, switchLCDBacklightOn]
  split_ifs <;> simp

lemma backlight_buzzer (clk : Clk) (s : St) (k : Nat) :
    (loopBuzzer clk s k).1.backlightOn = s.backlightOn := by
  unfold loopBuzzer
  split_ifs <;> rfl

lemma backlight_alarmLED (clk : Clk) (s : St) (k : Nat) :
    (loopAlarmLED clk s k).1.backlightOn = s.backlightOn := by
  unfold loopAlarmLED
  split_ifs <;> rfl

lemma backlight_heartbeat (clk : Clk) (s : St) (k : Nat) :
    (loopHeartbeat clk s k).1.backlightOn = s.backlightOn := by
  unfold loopHeartbeat
  split_ifs <;> rfl

lemma backlight_pre (clk : Clk) (inp : Input) (s : St) (k : Nat) :
    s.backlightOn ≤ (loopPre clk inp s k).1.backlightOn := by
  unfold loopPre
  rw [backlight_heartbeat, backlight_alarmLED, backlight_buzzer]
  refine le_trans ?_ (backlight_display _ _ _)
  rw [backlight_suspend]
  calc s.backlightOn = (loopSensor clk inp.magnetPressed s k).1.backlightOn :=
        (backlight_sensor clk inp.magnetPressed s k).symm
    _ ≤ _ := backlight_key _ _ _ _

lemma core_pre_tail (clk : Clk) (s : St) (k : Nat) :
    core (loopBacklight clk
      (loopHeartbeat clk
        (loopAlarmLED clk
          (loopBuzzer clk (loopDisplay clk s k).1 (loopDisplay clk s k).2).1
          (loopBuzzer clk (loopDisplay clk s k).1 (loopDisplay clk s k).2).2).1
        (loopAlarmLED clk
          (loopBuzzer clk (loopDisplay clk s k).1 (loopDisplay clk s k).2).1
          (loopBuzzer clk (loopDisplay clk s k).1 (loopDisplay clk s k).2).2).2).1
      (loopHeartbeat clk
        (loopAlarmLED clk
          (loopBuzzer clk (loopDisplay clk s k).1 (loopDisplay clk s k).2).1
          (loopBuzzer clk (loopDisplay clk s k).1 (loopDisplay clk s k).2).2).1
        (loopAlarmLED clk
          (loopBuzzer clk (loopDisplay clk s k).1 (loopDisplay clk s k).2).1
          (loopBuzzer clk (loopDisplay clk s k).1 (loopDisplay clk s k).2).2).2).2).1
    = core s := by
  rw [core_backlight, core_heartbeat, core_alarmLED, core_buzzer, core_display]

lemma fixed_activateAlarm (now : Nat) (s : St) (k : Nat) :
    (activateAlarm (fun _ => now) s k).1 = activateAlarmFixed now s := by
  unfold activateAlarm activateAlarmFixed
  split_ifs <;> rfl

lemma fixed_openGate (now : Nat) (s : St) (k : Nat) :
    (openGate (fun _ => now) s k).1 = openGateFixed now s := by
  unfold openGate openGateFixed showAlarmLED showAlarmLEDFixed
  dsimp only
  split_ifs <;> first | rfl | apply fixed_activateAlarm

lemma fixed_hash (now : Nat) (s : St) (k : Nat) :
    (processKeypadHash (fun _ => now) s k).1 = processKeypadHashFixed now s := by
  unfold processKeypadHash processKeypadHashFixed switchLCDBacklightOn
    switchLCDBacklightOnFixed
  dsimp only
  split_ifs <;> first | rfl | apply fixed_activateAlarm

lemma fixed_writeLines (now : Nat) (l1 l2 : String) (s : St) (k : Nat) :
    (writeLinesOnLCD (fun _ => now) l1 l2 s k).1 = writeLinesOnLCDFixed now l1 l2 s := by
  unfold writeLinesOnLCD writeLinesOnLCDFixed switchLCDBacklightOn
    switchLCDBacklightOnFixed
  dsimp only
  split_ifs <;> rfl

lemma fixed_updateDisplay (now : Nat) (s : St) (k : Nat) :
    (updateDisplay (fun _ => now) s k).1 = updateDisplayFixed now s := by
  unfold updateDisplay updateDisplayFixed
  split_ifs <;> apply fixed_writeLines

lemma fixed_sensor (now : Nat) (mp : Bool) (s : St) (k : Nat) :
    (loopSensor (fun _ => now) mp s k).1 = loopSensorFixed now mp s := by
  unfold loopSensor loopSensorFixed
  split_ifs <;> first | rfl | apply fixed_openGate

lemma fixed_key (now : Nat) (key : Char) (s : St) (k : Nat) :
    (loopKey (fun _ => now) key s k).1 = loopKeyFixed now key s := by
  unfold loopKey loopKeyFixed
  dsimp only
  split_ifs <;> first | rfl | apply fixed_hash

lemma fixed_suspend (now : Nat) (s : St) (k : Nat) :
    (loopSuspend (fun _ => now) s k).1 = loopSuspendFixed now s := by
  unfold loopSuspend loopSuspendFixed
  split_ifs <;> first | rfl | apply fixed_activateAlarm

lemma fixed_display (now : Nat) (s : St) (k : Nat) :
    (loopDisplay (fun _ => now) s k).1 = loopDisplayFixed now s := by
  unfold loopDisplay loopDisplayFixed
  split_ifs with h
  · show ({ (updateDisplay (fun _ => now) s (k + 1)).1 with lastDisplayUpdate := now }
        = { updateDisplayFixed now s with lastDisplayUpdate := now })
    rw [fixed_updateDisplay]
  · rfl

lemma fixed_buzzer (now : Nat) (s : St) (k : Nat) :
    (loopBuzzer (fun _ => now) s k).1 = loopBuzzerFixed now s := by
  unfold loopBuzzer loopBuzzerFixed
  split_ifs <;> rfl

lemma fixed_alarmLED (now : Nat) (s : St) (k : Nat) :
    (loopAlarmLED (fun _ => now) s k).1 = loopAlarmLEDFixed now s := by
  unfold loopAlarmLED loopAlarmLEDFixed
  split_ifs <;> rfl

lemma fixed_heartbeat (now : Nat) (s : St) (k : Nat) :
    (loopHeartbeat (fun _ => now) s k).1 = loopHeartbeatFixed now s := by
  unfold loopHeartbeat loopHeartbeatFixed
  split_ifs <;> rfl

lemma fixed_backlight (now : Nat) (s : St) (k : Nat) :
    (loopBacklight (fun _ => now) s k).1 = loopBacklightFixed now s := by
  unfold loopBacklight loopBacklightFixed
  split_ifs <;> rfl

lemma hash_editing_nonzero (t : St) (now : Nat)
    (ht : t.isUpdatingSuspendTime = true)
    (hpos : 0 < t.suspendTimeAccumulator)
    (hbound : t.suspendTimeAccumulator * (MILLIS_PER_MINUTE : Int) < 2 ^ 31) :
    (processKeypadHash (fun _ => now) t 0).1.totalSuspendTime
        = t.suspendTimeAccumulator * (MILLIS_PER_MINUTE : Int) ∧
    (processKeypadHash (fun _ => now) t 0).1.suspendStartTime = now ∧
    (processKeypadHash (fun _ => now) t 0).1.alarmSounding = false ∧
    (processKeypadHash (fun _ => now) t 0).1.isUpdatingSuspendTime = false ∧
    (processKeypadHash (fun _ => now) t 0).1.suspendTimeAccumulator = 0 := by
  have hMPM : (MILLIS_PER_MINUTE : Int) = 60000 := by
    norm_num [MILLIS_PER_MINUTE, MILLIS_PER_SECOND, SECONDS_PER_MINUTE]
  have hprod : 0 < t.suspendTimeAccumulator * (MILLIS_PER_MINUTE : Int) := by
    rw [hMPM]
    nlinarith
  have hw : wrap32 (t.suspendTimeAccumulator * (MILLIS_PER_MINUTE : Int))
      = t.suspendTimeAccumulator * (MILLIS_PER_MINUTE : Int) :=
    wrap32_eq _ (le_of_lt hprod) hbound
  have hnz : t.suspendTimeAccumulator ≠ 0 := by
    intro h
    rw [h] at hpos
    exact lt_irrefl 0 hpos
  simp only [processKeypadHash, ht, if_true, hnz, if_pos, silenceAlarm,
    isSuspended, isInfiniteSuspension, SUSPEND_OFF, SUSPEND_INFINITE, hw]
  split_ifs <;> simp_all <;> omega

lemma hash_editing_zero (t : St) (now : Nat)
    (ht : t.isUpdatingSuspendTime = true)
    (hz : t.suspendTimeAccumulator = 0) :
    (processKeypadHash (fun _ => now) t 0).1.totalSuspendTime = SUSPEND_OFF ∧
    (processKeypadHash (fun _ => now) t 0).1.isUpdatingSuspendTime = false ∧
    (processKeypadHash (fun _ => now) t 0).1.suspendTimeAccumulator = 0 ∧
    (t.gateOpen = true →
      (processKeypadHash (fun _ => now) t 0).1.alarmSounding = true) := by
  simp only [processKeypadHash, ht, hz, activateAlarm,
    isSuspended, isInfiniteSuspension, SUSPEND_OFF, SUSPEND_INFINITE]
  split_ifs <;> simp_all

/-!
The ten claims.
-/

/-- C1, counterexample: pressing `*` in a state where a suspend time is
being edited (editing flag set, accumulator 5) leaves the editing flag set
and the accumulator at 5 — the numeric-entry state is not cleared. -/
theorem claim1_star_editing_cx :
    ¬ ((processKeypadStar
          { st0 with isUpdatingSuspendTime := true,
                     suspendTimeAccumulator := 5 }).isUpdatingSuspendTime = false ∧
       (processKeypadStar
          { st0 with isUpdatingSuspendTime := true,
                     suspendTimeAccumulator := 5 }).suspendTimeAccumulator = 0) := by
  decide

/-- C1, amended: processing the star key (`processKeypadStar`, which calls
`reset()`) yields, from every state, gate-open false, suspension `Off`
(with its start timestamp zeroed) and alarm not sounding — but it leaves
the numeric-entry editing state (editing flag and accumulator) unchanged
rather than clearing it. -/
theorem claim1_star_reset (s : St) :
    (processKeypadStar s).gateOpen = false ∧
    (processKeypadStar s).totalSuspendTime = SUSPEND_OFF ∧
    (processKeypadStar s).suspendStartTime = 0 ∧
    (processKeypadStar s).alarmSounding = false ∧
    (processKeypadStar s).isUpdatingSuspendTime = s.isUpdatingSuspendTime ∧
    (processKeypadStar s).suspendTimeAccumulator = s.suspendTimeAccumulator := by
  simp only [processKeypadStar, reset, hideAlarmLED, silenceAlarm, cancelSuspension]
  split <;> simp_all

/-- C2, counterexample: with a clock that advances between the `millis()`
calls of one tick, the tick as written produces a different state than the
tick with all calls replaced by the first reading (here the display-update
and backlight-timeout references differ). -/
theorem claim2_moving_clock_cx :
    (loopTick clkCx noInput st0 0).1 ≠ loopTickFixed (clkCx 0) noInput st0 := by
  decide

/-- C2, amended: if the clock does not advance within the tick — every
`millis()` call of the iteration returns the same value `now` — then the
loop body as written is equal, in resulting state and outputs, to the body
with every `millis()` call replaced by that single reading.  (As written
the body reads `millis()` afresh at each call site, and the two differ
once the clock moves mid-tick, see the counterexample.) -/
theorem claim2_single_read_tick (now : Nat) (inp : Input) (s : St) (k : Nat) :
    (loopTick (fun _ => now) inp s k).1 = loopTickFixed now inp s := by
  unfold loopTick loopPre loopTickFixed
  rw [fixed_backlight, fixed_heartbeat, fixed_alarmLED, fixed_buzzer,
    fixed_display, fixed_suspend, fixed_key, fixed_sensor]

/-- C3: every tick is its pre-backlight part followed by exactly one
auto-off decision: the backlight is switched off precisely when
`now - backlightStart ≥ 10000` ms and the gate is closed and the
suspension is `Off` or `Infinite` and no suspend time is being edited
(all evaluated on the state after this tick's earlier sections); and the
earlier sections of a tick never switch the backlight off (they can only
leave it or switch it on). -/
theorem claim3_backlight_auto_off (clk : Clk) (inp : Input) (s : St) (k : Nat) :
    (loopTick clk inp s k =
      (if usub (clk (loopPre clk inp s k).2)
            (loopPre clk inp s k).1.lcdBacklightTimeoutStartTime ≥ LCD_BACKLIGHT_TIMEOUT
          ∧ (loopPre clk inp s k).1.gateOpen = false
          ∧ ((loopPre clk inp s k).1.totalSuspendTime = 0
              ∨ (loopPre clk inp s k).1.totalSuspendTime = -1)
          ∧ (loopPre clk inp s k).1.isUpdatingSuspendTime = false
       then (switchLCDBacklightOff (loopPre clk inp s k).1, (loopPre clk inp s k).2 + 1)
       else ((loopPre clk inp s k).1, (loopPre clk inp s k).2 + 1))) ∧
    s.backlightOn ≤ (loopPre clk inp s k).1.backlightOn := by
  constructor
  · simp only [loopTick, loopBacklight, isSuspended, isInfiniteSuspension,
      SUSPEND_OFF, SUSPEND_INFINITE]
    split_ifs <;> simp_all
  · exact backlight_pre clk inp s k

/-- C4: the invariant "alarm sounding only while the gate is open and no
suspension is active" is preserved by digit, hash and star key
processing, by the sensor's gate-open event, and by a whole loop tick. -/
theorem claim4_alarm_invariant (clk : Clk) (inp : Input) (d : Int) (s : St)
    (k : Nat) (h : Inv s) :
    Inv (processKeypadDigit d s) ∧
    Inv (processKeypadHash clk s k).1 ∧
    Inv (processKeypadStar s) ∧
    Inv (openGate clk s k).1 ∧
    Inv (loopTick clk inp s k).1 := by
  refine ⟨Inv_digit d h, Inv_hash clk h k, Inv_star s, Inv_openGate clk h k, ?_⟩
  unfold loopTick loopPre
  exact Inv_of_core (core_backlight _ _ _)
    (Inv_of_core (core_heartbeat _ _ _)
      (Inv_of_core (core_alarmLED _ _ _)
        (Inv_of_core (core_buzzer _ _ _)
          (Inv_of_core (core_display _ _ _)
            (Inv_suspend clk (Inv_key clk inp.key (Inv_sensor clk inp.magnetPressed h k) _) _)))))

/-- C4, witness: the invariant preservation applied at a concrete quiescent
state. -/
theorem claim4_alarm_invariant_witness :
    Inv (processKeypadDigit 3 st0) ∧
    Inv (processKeypadHash (fun _ => 0) st0 0).1 ∧
    Inv (processKeypadStar st0) ∧
    Inv (openGate (fun _ => 0) st0 0).1 ∧
    Inv (loopTick (fun _ => 0) noInput st0 0).1 :=
  claim4_alarm_invariant (fun _ => 0) noInput 3 st0 0
    (by unfold Inv; decide)

/-- C5: with a finite suspension of `d` ms started at `t`, the gate open
and the alarm silent, a tick (no input) at time `now` with
`now - t ≤ d` leaves the suspension (duration and start) and the silent
alarm untouched, while a tick with `now - t > d` cancels the suspension
and re-activates the alarm — the boundary is strict. -/
theorem claim5_suspension_timeout (s : St) (d t now k : Nat)
    (hd : s.totalSuspendTime = (d : Int))
    (hd0 : 0 < d) (hdw : d < 2 ^ 31)
    (ht : s.suspendStartTime = t)
    (htn : t ≤ now) (hw : now - t < UL)
    (hg : s.gateOpen = true)
    (ha : s.alarmSounding = false) :
    (now - t ≤ d →
       (loopTick (fun _ => now) noInput s k).1.totalSuspendTime = (d : Int) ∧
       (loopTick (fun _ => now) noInput s k).1.suspendStartTime = t ∧
       (loopTick (fun _ => now) noInput s k).1.alarmSounding = false) ∧
    (now - t > d →
       (loopTick (fun _ => now) noInput s k).1.totalSuspendTime = SUSPEND_OFF ∧
       (loopTick (fun _ => now) noInput s k).1.alarmSounding = true) := by
  have hUL : d < UL := by
    simp only [UL]
    omega
  have h1 : loopSensor (fun _ => now) noInput.magnetPressed s k = (s, k) := by
    simp [noInput, loopSensor]
  have h2 : loopKey (fun _ => now) noInput.key s k = (s, k) := by
    simp [noInput, loopKey]
  unfold loopTick loopPre
  simp only [h1, h2]
  constructor
  · intro hle
    have hsusp : loopSuspend (fun _ => now) s k = (s, k + 1) := by
      simp only [loopSuspend, hd, ht, isSuspended, isInfiniteSuspension,
        SUSPEND_OFF, SUSPEND_INFINITE, usub_sub now t htn hw, toU32_coe d hUL]
      split_ifs <;> first | rfl | (exfalso; simp_all <;> omega)
    rw [hsusp]
    have hcore := core_pre_tail (fun _ => now) s (k + 1)
    simp only [core, Prod.mk.injEq] at hcore
    exact ⟨by rw [hcore.2.2.1, hd], by rw [hcore.2.2.2.1, ht],
           by rw [hcore.1, ha]⟩
  · intro hgt
    have hsusp : loopSuspend (fun _ => now) s k
        = activateAlarm (fun _ => now) (cancelSuspension s) (k + 1) := by
      simp only [loopSuspend, hd, ht, isSuspended, isInfiniteSuspension,
        SUSPEND_OFF, SUSPEND_INFINITE, usub_sub now t htn hw, toU32_coe d hUL]
      split_ifs <;> first | rfl | (exfalso; simp_all <;> omega)
    rw [hsusp]
    have hact : (activateAlarm (fun _ => now) (cancelSuspension s) (k + 1)).1.totalSuspendTime = SUSPEND_OFF ∧
        (activateAlarm (fun _ => now) (cancelSuspension s) (k + 1)).1.alarmSounding = true := by
      simp [activateAlarm, cancelSuspension, hg, ha]
    have hcore := core_pre_tail (fun _ => now)
      (activateAlarm (fun _ => now) (cancelSuspension s) (k + 1)).1
      (activateAlarm (fun _ => now) (cancelSuspension s) (k + 1)).2
    simp only [core, Prod.mk.injEq] at hcore
    exact ⟨by rw [hcore.2.2.1, hact.1], by rw [hcore.1, hact.2]⟩

/-- C5, witness: a 60000 ms suspension started at 5000 with the gate open,
ticked at 30000. -/
theorem claim5_suspension_timeout_witness :
    (30000 - 5000 ≤ 60000 →
       (loopTick (fun _ => 30000) noInput
          { st0 with gateOpen := true, totalSuspendTime := 60000,
                     suspendStartTime := 5000 } 0).1.totalSuspendTime = ((60000 : Nat) : Int) ∧
       (loopTick (fun _ => 30000) noInput
          { st0 with gateOpen := true, totalSuspendTime := 60000,
                     suspendStartTime := 5000 } 0).1.suspendStartTime = 5000 ∧
       (loopTick (fun _ => 30000) noInput
          { st0 with gateOpen := true, totalSuspendTime := 60000,
                     suspendStartTime := 5000 } 0).1.alarmSounding = false) ∧
    (30000 - 5000 > 60000 →
       (loopTick (fun _ => 30000) noInput
          { st0 with gateOpen := true, totalSuspendTime := 60000,
                     suspendStartTime := 5000 } 0).1.totalSuspendTime = SUSPEND_OFF ∧
       (loopTick (fun _ => 30000) noInput
          { st0 with gateOpen := true, totalSuspendTime := 60000,
                     suspendStartTime := 5000 } 0).1.alarmSounding = true) :=
  claim5_suspension_timeout
    { st0 with gateOpen := true, totalSuspendTime := 60000, suspendStartTime := 5000 }
    60000 5000 30000 0 (by decide) (by decide) (by decide) (by decide)
    (by decide) (by decide) (by decide) (by decide)

/-- C6, counterexample: entering the accumulator value `2^27` and pressing
`#` does not enter a suspension of `2^27` minutes: the source computes the
duration in unsigned 32-bit arithmetic, `2^27 * 60000 mod 2^32 = 0`, so
`SUSPEND_OFF` is stored instead of `2^27 * 60000` ms. -/
theorem claim6_wrap_cx :
    (processKeypadHash (fun _ => 1000)
        { st0 with isUpdatingSuspendTime := true,
                   suspendTimeAccumulator := 134217728 } 0).1.totalSuspendTime
      = SUSPEND_OFF ∧
    ¬ ((processKeypadHash (fun _ => 1000)
        { st0 with isUpdatingSuspendTime := true,
                   suspendTimeAccumulator := 134217728 } 0).1.totalSuspendTime
      = (134217728 : Int) * (MILLIS_PER_MINUTE : Int)) := by
  decide

/-- C6, amended: from a non-editing state a first digit starts numeric
entry with the accumulator set to that digit, and each later digit
decimal-shifts the accumulator (`acc * 10 + digit`).  A following `#`
with accumulator `n` stores `wrap32 (n * 60000)` as the duration (the
source multiplies `long` by `unsigned long` mod `2^32`); whenever
`0 < n` and `n * 60000 < 2^31` — so the product does not wrap — this is
a suspension of exactly `n` minutes starting at the current timestamp,
the alarm is silenced, editing ends and the accumulator is cleared; in
particular "1","2","#" yields a suspension of 12 minutes starting now. -/
theorem claim6_digit_entry_hash (s t : St) (d e : Int) (now : Nat)
    (hs : s.isUpdatingSuspendTime = false)
    (ht : t.isUpdatingSuspendTime = true)
    (hpos : 0 < t.suspendTimeAccumulator)
    (hbound : t.suspendTimeAccumulator * (MILLIS_PER_MINUTE : Int) < 2 ^ 31) :
    (processKeypadDigit d s).isUpdatingSuspendTime = true ∧
    (processKeypadDigit d s).suspendTimeAccumulator = d ∧
    (processKeypadDigit e t).isUpdatingSuspendTime = true ∧
    (processKeypadDigit e t).suspendTimeAccumulator
        = t.suspendTimeAccumulator * 10 + e ∧
    (processKeypadHash (fun _ => now) t 0).1.totalSuspendTime
        = t.suspendTimeAccumulator * (MILLIS_PER_MINUTE : Int) ∧
    (processKeypadHash (fun _ => now) t 0).1.suspendStartTime = now ∧
    (processKeypadHash (fun _ => now) t 0).1.alarmSounding = false ∧
    (processKeypadHash (fun _ => now) t 0).1.isUpdatingSuspendTime = false ∧
    (processKeypadHash (fun _ => now) t 0).1.suspendTimeAccumulator = 0 ∧
    (processKeypadHash (fun _ => now)
        (processKeypadDigit 2 (processKeypadDigit 1 s)) 0).1.totalSuspendTime
        = 12 * (MILLIS_PER_MINUTE : Int) ∧
    (processKeypadHash (fun _ => now)
        (processKeypadDigit 2 (processKeypadDigit 1 s)) 0).1.suspendStartTime
        = now := by
  have hd1 : (processKeypadDigit 1 s).isUpdatingSuspendTime = true ∧
      (processKeypadDigit 1 s).suspendTimeAccumulator = 1 := by
    simp [processKeypadDigit, hs]
  have hd2 : (processKeypadDigit 2 (processKeypadDigit 1 s)).isUpdatingSuspendTime = true ∧
      (processKeypadDigit 2 (processKeypadDigit 1 s)).suspendTimeAccumulator = 12 := by
    constructor
    · simp [processKeypadDigit, hs]
    · simp [processKeypadDigit, hs, DIGIT_ENTRY_BASE]
  obtain ⟨ht1, ht2, ht3, ht4, ht5⟩ := hash_editing_nonzero t now ht hpos hbound
  obtain ⟨hq1, hq2, hq3, hq4, hq5⟩ :=
    hash_editing_nonzero _ now hd2.1 (by rw [hd2.2]; norm_num)
      (by rw [hd2.2]
          norm_num [MILLIS_PER_MINUTE, MILLIS_PER_SECOND, SECONDS_PER_MINUTE])
  exact ⟨by simp [processKeypadDigit, hs], by simp [processKeypadDigit, hs],
         by simp [processKeypadDigit, ht],
         by simp [processKeypadDigit, ht, DIGIT_ENTRY_BASE],
         ht1, ht2, ht3, ht4, ht5,
         by rw [hq1, hd2.2], hq2⟩

/-- C6, witness: the digit/hash behaviour at concrete states (editing with
accumulator 3; quiescent) and keys 7 and 4, at time 1000. -/
theorem claim6_digit_entry_hash_witness :
    (processKeypadDigit 7 st0).isUpdatingSuspendTime = true ∧
    (processKeypadDigit 7 st0).suspendTimeAccumulator = 7 ∧
    (processKeypadDigit 4
        { st0 with isUpdatingSuspendTime := true,
                   suspendTimeAccumulator := 3 }).isUpdatingSuspendTime = true ∧
    (processKeypadDigit 4
        { st0 with isUpdatingSuspendTime := true,
                   suspendTimeAccumulator := 3 }).suspendTimeAccumulator
        = ({ st0 with isUpdatingSuspendTime := true,
                      suspendTimeAccumulator := 3 } : St).suspendTimeAccumulator * 10 + 4 ∧
    (processKeypadHash (fun _ => 1000)
        { st0 with isUpdatingSuspendTime := true,
                   suspendTimeAccumulator := 3 } 0).1.totalSuspendTime
        = ({ st0 with isUpdatingSuspendTime := true,
                      suspendTimeAccumulator := 3 } : St).suspendTimeAccumulator
            * (MILLIS_PER_MINUTE : Int) ∧
    (processKeypadHash (fun _ => 1000)
        { st0 with isUpdatingSuspendTime := true,
                   suspendTimeAccumulator := 3 } 0).1.suspendStartTime = 1000 ∧
    (processKeypadHash (fun _ => 1000)
        { st0 with isUpdatingSuspendTime := true,
                   suspendTimeAccumulator := 3 } 0).1.alarmSounding = false ∧
    (processKeypadHash (fun _ => 1000)
        { st0 with isUpdatingSuspendTime := true,
                   suspendTimeAccumulator := 3 } 0).1.isUpdatingSuspendTime = false ∧
    (processKeypadHash (fun _ => 1000)
        { st0 with isUpdatingSuspendTime := true,
                   suspendTimeAccumulator := 3 } 0).1.suspendTimeAccumulator = 0 ∧
    (processKeypadHash (fun _ => 1000)
        (processKeypadDigit 2 (processKeypadDigit 1 st0)) 0).1.totalSuspendTime
        = 12 * (MILLIS_PER_MINUTE : Int) ∧
    (processKeypadHash (fun _ => 1000)
        (processKeypadDigit 2 (processKeypadDigit 1 st0)) 0).1.suspendStartTime
        = 1000 :=
  claim6_digit_entry_hash st0
    { st0 with isUpdatingSuspendTime := true, suspendTimeAccumulator := 3 }
    7 4 1000 (by decide) (by decide) (by decide) (by decide)

/-- C7: terminating numeric entry of exactly zero with `#` yields
suspension `Off` (not a zero-length timed suspension), ends editing mode,
and when the gate is open re-activates the alarm within the same
key-handling step; in particular the sequence "0","#" from a non-editing
state does so. -/
theorem claim7_zero_entry_off (t s : St) (now : Nat)
    (ht : t.isUpdatingSuspendTime = true)
    (hz : t.suspendTimeAccumulator = 0)
    (hs : s.isUpdatingSuspendTime = false) :
    (processKeypadHash (fun _ => now) t 0).1.totalSuspendTime = SUSPEND_OFF ∧
    (processKeypadHash (fun _ => now) t 0).1.isUpdatingSuspendTime = false ∧
    (processKeypadHash (fun _ => now) t 0).1.suspendTimeAccumulator = 0 ∧
    (t.gateOpen = true →
      (processKeypadHash (fun _ => now) t 0).1.alarmSounding = true) ∧
    (processKeypadHash (fun _ => now)
        (processKeypadDigit 0 s) 0).1.totalSuspendTime = SUSPEND_OFF ∧
    (processKeypadHash (fun _ => now)
        (processKeypadDigit 0 s) 0).1.isUpdatingSuspendTime = false ∧
    (s.gateOpen = true →
      (processKeypadHash (fun _ => now)
        (processKeypadDigit 0 s) 0).1.alarmSounding = true) := by
  obtain ⟨ht1, ht2, ht3, ht4⟩ := hash_editing_zero t now ht hz
  have hdig : (processKeypadDigit 0 s).isUpdatingSuspendTime = true ∧
      (processKeypadDigit 0 s).suspendTimeAccumulator = 0 ∧
      (processKeypadDigit 0 s).gateOpen = s.gateOpen := by
    simp [processKeypadDigit, hs]
  obtain ⟨hq1, hq2, hq3, hq4⟩ :=
    hash_editing_zero (processKeypadDigit 0 s) now hdig.1 hdig.2.1
  exact ⟨ht1, ht2, ht3, ht4, hq1, hq2, fun hg => hq4 (by rw [hdig.2.2, hg])⟩

/-- C7, witness: the zero-entry behaviour at a concrete editing state with
accumulator 0 and a concrete quiescent state, at time 42. -/
theorem claim7_zero_entry_off_witness :
    (processKeypadHash (fun _ => 42)
        { st0 with isUpdatingSuspendTime := true } 0).1.totalSuspendTime = SUSPEND_OFF ∧
    (processKeypadHash (fun _ => 42)
        { st0 with isUpdatingSuspendTime := true } 0).1.isUpdatingSuspendTime = false ∧
    (processKeypadHash (fun _ => 42)
        { st0 with isUpdatingSuspendTime := true } 0).1.suspendTimeAccumulator = 0 ∧
    (({ st0 with isUpdatingSuspendTime := true } : St).gateOpen = true →
      (processKeypadHash (fun _ => 42)
        { st0 with isUpdatingSuspendTime := true } 0).1.alarmSounding = true) ∧
    (processKeypadHash (fun _ => 42)
        (processKeypadDigit 0 st0) 0).1.totalSuspendTime = SUSPEND_OFF ∧
    (processKeypadHash (fun _ => 42)
        (processKeypadDigit 0 st0) 0).1.isUpdatingSuspendTime = false ∧
    (st0.gateOpen = true →
      (processKeypadHash (fun _ => 42)
        (processKeypadDigit 0 st0) 0).1.alarmSounding = true) :=
  claim7_zero_entry_off { st0 with isUpdatingSuspendTime := true } st0 42
    (by decide) (by decide) (by decide)

/-- C8: pressing `#` while not editing enters `Infinite` suspension
(duration marker `SUSPEND_INFINITE`, stored start timestamp zeroed,
replacing whatever suspension was active) and unconditionally switches the
backlight on with its timeout reference reset to the current timestamp,
from every non-editing state. -/
theorem claim8_hash_infinite (s : St) (now k : Nat)
    (h : s.isUpdatingSuspendTime = false) :
    (processKeypadHash (fun _ => now) s k).1.totalSuspendTime = SUSPEND_INFINITE ∧
    (processKeypadHash (fun _ => now) s k).1.suspendStartTime = 0 ∧
    (processKeypadHash (fun _ => now) s k).1.backlightOn = true ∧
    (processKeypadHash (fun _ => now) s k).1.lcdBacklightTimeoutStartTime = now := by
  simp only [processKeypadHash, h, switchLCDBacklightOn, silenceAlarm,
    isSuspended, isInfiniteSuspension, SUSPEND_OFF, SUSPEND_INFINITE]
  split_ifs <;> simp_all

/-- C8, witness: `#` while not editing at a concrete state, replacing a
finite suspension, at time 77. -/
theorem claim8_hash_infinite_witness :
    (processKeypadHash (fun _ => 77)
        { st0 with totalSuspendTime := 120000, suspendStartTime := 4 } 0).1.totalSuspendTime
        = SUSPEND_INFINITE ∧
    (processKeypadHash (fun _ => 77)
        { st0 with totalSuspendTime := 120000, suspendStartTime := 4 } 0).1.suspendStartTime = 0 ∧
    (processKeypadHash (fun _ => 77)
        { st0 with totalSuspendTime := 120000, suspendStartTime := 4 } 0).1.backlightOn = true ∧
    (processKeypadHash (fun _ => 77)
        { st0 with totalSuspendTime := 120000, suspendStartTime := 4 } 0).1.lcdBacklightTimeoutStartTime
        = 77 :=
  claim8_hash_infinite
    { st0 with totalSuspendTime := 120000, suspendStartTime := 4 } 77 0 (by decide)

/-- C9: while the alarm is sounding, the buzzer section of a tick at time
`now` drives the buzzer pin high exactly when
`elapsed = now - buzzerStart < 1500` ms, low when
`1500 ≤ elapsed ≤ 2500` ms, and when `elapsed > 2500` ms rebases the pulse
reference to `now` leaving the pin at its previous value for that tick —
so the buzzer is high for the first 1500 ms of each 2500 ms cycle and low
for the remaining 1000 ms. -/
theorem claim9_buzzer_pulse (s : St) (now k : Nat)
    (hs : s.alarmSounding = true)
    (h1 : s.alarmBuzzerPulseStartTime ≤ now)
    (h2 : now - s.alarmBuzzerPulseStartTime < UL) :
    (now - s.alarmBuzzerPulseStartTime < ALARM_BUZZER_ON_TIME →
       loopBuzzer (fun _ => now) s k = ({ s with buzzerPin := true }, k + 2)) ∧
    (ALARM_BUZZER_ON_TIME ≤ now - s.alarmBuzzerPulseStartTime →
     now - s.alarmBuzzerPulseStartTime ≤ ALARM_BUZZER_CYCLE_TIME →
       loopBuzzer (fun _ => now) s k = ({ s with buzzerPin := false }, k + 2)) ∧
    (now - s.alarmBuzzerPulseStartTime > ALARM_BUZZER_CYCLE_TIME →
       loopBuzzer (fun _ => now) s k
         = ({ s with alarmBuzzerPulseStartTime := now }, k + 2)) := by
  have hu := usub_sub now s.alarmBuzzerPulseStartTime h1 h2
  simp only [loopBuzzer, hs, if_true, hu, ALARM_BUZZER_ON_TIME,
    ALARM_BUZZER_CYCLE_TIME, ALARM_BUZZER_OFF_TIME]
  refine ⟨fun h => ?_, fun h h3 => ?_, fun h => ?_⟩ <;>
    split_ifs <;> simp_all <;> omega

/-- C9, witness: the buzzer section at a concrete sounding state whose
pulse reference is 0, ticked at 100 ms. -/
theorem claim9_buzzer_pulse_witness :
    (100 - ({ st0 with alarmSounding := true } : St).alarmBuzzerPulseStartTime
        < ALARM_BUZZER_ON_TIME →
       loopBuzzer (fun _ => 100) { st0 with alarmSounding := true } 0
         = ({ { st0 with alarmSounding := true } with buzzerPin := true }, 0 + 2)) ∧
    (ALARM_BUZZER_ON_TIME
        ≤ 100 - ({ st0 with alarmSounding := true } : St).alarmBuzzerPulseStartTime →
     100 - ({ st0 with alarmSounding := true } : St).alarmBuzzerPulseStartTime
        ≤ ALARM_BUZZER_CYCLE_TIME →
       loopBuzzer (fun _ => 100) { st0 with alarmSounding := true } 0
         = ({ { st0 with alarmSounding := true } with buzzerPin := false }, 0 + 2)) ∧
    (100 - ({ st0 with alarmSounding := true } : St).alarmBuzzerPulseStartTime
        > ALARM_BUZZER_CYCLE_TIME →
       loopBuzzer (fun _ => 100) { st0 with alarmSounding := true } 0
         = ({ { st0 with alarmSounding := true } with
              alarmBuzzerPulseStartTime := 100 }, 0 + 2)) :=
  claim9_buzzer_pulse { st0 with alarmSounding := true } 100 0
    (by decide) (by decide) (by decide)

/-- C10: processing a digit key changes only the numeric-entry accumulator
and the editing flag: the gate-open flag, alarm-sounding flag, suspension
duration and suspension start timestamp are unchanged in every state. -/
theorem claim10_digit_frame (d : Int) (s : St) :
    (processKeypadDigit d s).gateOpen = s.gateOpen ∧
    (processKeypadDigit d s).alarmSounding = s.alarmSounding ∧
    (processKeypadDigit d s).totalSuspendTime = s.totalSuspendTime ∧
    (processKeypadDigit d s).suspendStartTime = s.suspendStartTime := by
  simp only [processKeypadDigit]
  split <;> simp

end GateAlarm
